import Mathlib

/-!
Formal model of the entitlement and usage accounting logic of the
astrology-ai backend.

The model is a shallow embedding of the Python sources:
* `src/services/usage_tracker.py` (namespace `UsageTracker`),
* `src/constants/limits.py` (top-level constants),
* `src/services/database.py` subscription mutations (namespace `DB`),
* `src/api/webhook_router.py` billing-event handlers (namespace `Webhook`),
* `src/services/subscription.py` plan lookup (`determine_plan_from_price_id`).

Timestamps are modelled as POSIX epoch seconds (`Int`).  A Python `datetime`
carries a timezone-awareness flag; a naive datetime's clock reading is stored
as the epoch value obtained by reading the clock fields as UTC, which is
exactly what `replace(tzinfo=timezone.utc)` does to it.  The current wall
clock `datetime.now(timezone.utc)` becomes an explicit `now : Int` parameter.

A few definitions used by the sources (`get_effective_plan`, the new
`can_send_message` gate, `LIFETIME_EXPIRY`, the free-tier configuration
constants) are imported by the routers from modules whose current bodies are
not part of the source tree; those are modelled from the specification and
are marked `Modelled from the spec:` in their doc comments.
-/

/-- Model of a Python `datetime`: `epoch` is the POSIX reading of the clock
fields interpreted as UTC, `aware` records whether `tzinfo` is set. -/
structure PyDateTime where
  epoch : Int
  aware : Bool
deriving DecidableEq, Repr

/-- `d.replace(tzinfo=timezone.utc)` applied when `d.tzinfo is None`:
the clock reading is reinterpreted as UTC, so the epoch value is kept. -/
def ensureUtc (d : PyDateTime) : PyDateTime :=
  if d.aware then d else { epoch := d.epoch, aware := true }

theorem ensureUtc_epoch (d : PyDateTime) : (ensureUtc d).epoch = d.epoch := by
  unfold ensureUtc
  split <;> rfl

/-- Usage row (`models/subscription.py`): free-tier message counter and the
start of the current rolling window.  `last_reset_at` is optional because the
tracker helpers guard against an unset value. -/
structure Usage where
  message_count : Nat
  last_reset_at : Option PyDateTime
deriving DecidableEq, Repr

/-- Subscription plan types (`models/subscription.py`). -/
inductive PlanType
  | FREE
  | BASIC
  | PRO
deriving DecidableEq, Repr

/-- The `.value` of the `PlanType` string enum. -/
def PlanType.value : PlanType → String
  | .FREE => "free"
  | .BASIC => "basic"
  | .PRO => "pro"

/-- `USAGE_WINDOW_SECONDS` from `src/constants/limits.py`:
the rolling usage window, 24 hours in seconds. -/
def USAGE_WINDOW_SECONDS : Int := 24 * 60 * 60

namespace UsageTracker

/-- `PLAN_LIMITS` from `src/services/usage_tracker.py`:
per-plan message limits, `none` meaning unlimited. -/
def PLAN_LIMITS : PlanType → Option Nat
  | .FREE => some 1
  | .BASIC => some 3
  | .PRO => none

/-- `get_plan_message_limit` from `src/services/usage_tracker.py`. -/
def get_plan_message_limit (plan_type : PlanType) : Option Nat :=
  PLAN_LIMITS plan_type

/-- `_should_reset_usage` from `src/services/usage_tracker.py`: true when
`last_reset_at` is unset or at least 24 hours (`timedelta(hours=24)`) have
elapsed since it; a naive timestamp is first reinterpreted as UTC. -/
def _should_reset_usage (now : Int) (last_reset_at : Option PyDateTime) : Bool :=
  match last_reset_at with
  | none => true
  | some d =>
    let la := ensureUtc d
    decide ((24 : Int) * 60 * 60 ≤ now - la.epoch)

/-- `should_reset_daily_usage` from `src/services/usage_tracker.py`. -/
def should_reset_daily_usage (now : Int) (usage : Usage) : Bool :=
  _should_reset_usage now usage.last_reset_at

/-- `is_message_limit_exceeded` from `src/services/usage_tracker.py`. -/
def is_message_limit_exceeded (now : Int) (usage : Usage) (plan_type : PlanType) : Bool :=
  match get_plan_message_limit plan_type with
  | none => false
  | some limit =>
    if _should_reset_usage now usage.last_reset_at then false
    else decide (limit ≤ usage.message_count)

/-- `can_send_message` from `src/services/usage_tracker.py`. -/
def can_send_message (now : Int) (usage : Usage) (plan_type : PlanType) : Bool :=
  ! is_message_limit_exceeded now usage plan_type

/-- `get_remaining_messages` from `src/services/usage_tracker.py`. -/
def get_remaining_messages (now : Int) (usage : Usage) (plan_type : PlanType) : Int :=
  match get_plan_message_limit plan_type with
  | none => 999999
  | some limit =>
    if _should_reset_usage now usage.last_reset_at then (limit : Int)
    else max 0 ((limit : Int) - (usage.message_count : Int))

end UsageTracker

/-- Modelled from the spec: `LIFETIME_EXPIRY` (imported from
`constants.limits` by `src/services/database.py`, body not in the tree) is
the lifetime sentinel date, "a sentinel far-future value (e.g., year 2099)";
modelled as 2099-01-01T00:00:00Z in epoch seconds. -/
def LIFETIME_EXPIRY : Int := 4070908800

/-- Subscription row as used by `src/services/database.py`: Stripe
references, status string, activity flag, billing-period end, prepaid
message credits and the unlimited-pass expiry. -/
structure Subscription where
  stripe_subscription_id : Option String
  stripe_price_id : Option String
  status : String
  is_active : Bool
  current_period_end : Option Int
  message_credits : Int
  unlimited_until : Option PyDateTime
deriving DecidableEq, Repr

/-- `SubscriptionUpdate` payload (`models/subscription.py` shape forced by
`update_user_subscription`): every field optional, `none` meaning "leave
unchanged" (except `current_period_end`, see `update_user_subscription`). -/
structure SubscriptionUpdate where
  stripe_subscription_id : Option String
  stripe_price_id : Option String
  status : Option String
  is_active : Option Bool
  current_period_end : Option Int
  message_credits : Option Int
  unlimited_until : Option Int
deriving DecidableEq, Repr

namespace DB

/-- `deduct_message_credit` from `src/services/database.py`: returns the row
unchanged when `message_credits <= 0`, otherwise decrements it by one. -/
def deduct_message_credit (sub : Subscription) : Subscription :=
  if sub.message_credits ≤ 0 then sub
  else { sub with message_credits := sub.message_credits - 1 }

/-- `set_unlimited_until` from `src/services/database.py`: stores the new
expiry and sets the status string to "lifetime" when the expiry is at or
after `LIFETIME_EXPIRY`, else "unlimited". -/
def set_unlimited_until (sub : Subscription) (until_dt : Int) : Subscription :=
  { sub with
    unlimited_until := some { epoch := until_dt, aware := true },
    status := if LIFETIME_EXPIRY ≤ until_dt then "lifetime" else "unlimited" }

/-- `extend_unlimited_until` from `src/services/database.py`: the base is
`now`, replaced by the stored `unlimited_until` (naive values reinterpreted
as UTC) when that is strictly after `now`; the new expiry is
`base + duration`. -/
def extend_unlimited_until (now : Int) (sub : Subscription) (duration : Int) : Subscription :=
  let base : Int :=
    match sub.unlimited_until with
    | none => now
    | some cu =>
      if now < (ensureUtc cu).epoch then (ensureUtc cu).epoch else now
  set_unlimited_until sub (base + duration)

/-- `update_user_subscription` from `src/services/database.py`: applies the
non-`none` fields of the payload.  `current_period_end` is special: the
source adds it to the update dict in both branches of its `if`/`elif`, so the
stored value is always overwritten with the payload value, `none` included. -/
def update_user_subscription (sub : Subscription) (u : SubscriptionUpdate) : Subscription :=
  { sub with
    stripe_subscription_id :=
      match u.stripe_subscription_id with
      | some s => some s
      | none => sub.stripe_subscription_id,
    stripe_price_id :=
      match u.stripe_price_id with
      | some s => some s
      | none => sub.stripe_price_id,
    status :=
      match u.status with
      | some s => s
      | none => sub.status,
    is_active :=
      match u.is_active with
      | some b => b
      | none => sub.is_active,
    current_period_end := u.current_period_end,
    message_credits :=
      match u.message_credits with
      | some c => c
      | none => sub.message_credits,
    unlimited_until :=
      match u.unlimited_until with
      | some v => some { epoch := v, aware := true }
      | none => sub.unlimited_until }

end DB

namespace SpecModel

/-- The derived access tier.  Modelled from the spec: the current `PlanType`
enum consumed by `src/api/websocket_router.py` (members `FREE`, `CREDITS`,
`UNLIMITED`, `LIFETIME`) is not in the tree. -/
inductive EffectivePlan
  | FREE
  | CREDITS
  | UNLIMITED
  | LIFETIME
deriving DecidableEq, Repr

/-- Modelled from the spec: free-tier message limit (default 1). -/
def FREE_MESSAGE_LIMIT : Int := 1

/-- Modelled from the spec: free-tier window length in hours (default 48). -/
def FREE_WINDOW_HOURS : Int := 48

/-- Modelled from the spec: `get_effective_plan` (imported by
`src/api/websocket_router.py` from the usage tracker, body not in the tree).
If `unlimited_until` is set and strictly after now, returns `LIFETIME` when
the stored value is at/after the lifetime sentinel, else `UNLIMITED`; else
`CREDITS` when `message_credits > 0`; else `FREE`. -/
def get_effective_plan (now : Int) (sub : Subscription) : EffectivePlan :=
  match sub.unlimited_until with
  | some u =>
    if now < (ensureUtc u).epoch then
      if LIFETIME_EXPIRY ≤ (ensureUtc u).epoch then .LIFETIME else .UNLIMITED
    else if 0 < sub.message_credits then .CREDITS else .FREE
  | none => if 0 < sub.message_credits then .CREDITS else .FREE

/-- Modelled from the spec: `is_window_expired(last_reset_at, window_hours)`
of the Usage Window Tracker — true when `last_reset_at` is unset or
`now - last_reset_at >= window_hours`, naive timestamps treated as UTC. -/
def is_window_expired (now : Int) (last_reset_at : Option PyDateTime)
    (window_hours : Int) : Bool :=
  match last_reset_at with
  | none => true
  | some d => decide (window_hours * 60 * 60 ≤ now - (ensureUtc d).epoch)

/-- Modelled from the spec: `remaining_free_messages(usage, limit,
window_hours)` — the full `limit` when the window is expired, else
`max(0, limit - message_count)`. -/
def get_remaining_free_messages (now : Int) (usage : Usage) (limit : Int)
    (window_hours : Int) : Int :=
  if is_window_expired now usage.last_reset_at window_hours then limit
  else max 0 (limit - (usage.message_count : Int))

/-- Modelled from the spec: the access gate `can_send_message(subscription,
usage)` called by `src/api/websocket_router.py` (body not in the tree) —
`LIFETIME`/`UNLIMITED`/`CREDITS` allow, `FREE` delegates to
`remaining_free_messages > 0`. -/
def can_send_message (now : Int) (sub : Subscription) (usage : Usage)
    (limit : Int) (window_hours : Int) : Bool :=
  match get_effective_plan now sub with
  | .LIFETIME => true
  | .UNLIMITED => true
  | .CREDITS => true
  | .FREE => decide (0 < get_remaining_free_messages now usage limit window_hours)

end SpecModel

/-- `determine_plan_from_price_id` from `src/services/subscription.py`:
walks the `STRIPE_PRICE_IDS` mapping (insertion order `FREE`, `BASIC`,
`PRO`; values are environment-supplied, hence a parameter here) and returns
the first plan whose configured price matches; `ValueError` for an unknown
price is modelled as `none`. -/
def determine_plan_from_price_id (prices : PlanType → Option String)
    (price_id : String) : Option PlanType :=
  [PlanType.FREE, PlanType.BASIC, PlanType.PRO].find?
    (fun p => prices p == some price_id)

namespace Webhook

/-- Python truthiness test `not s` for an optional string: true for `None`
and for the empty string. -/
def isFalsy : Option String → Bool
  | none => true
  | some s => s.isEmpty

/-- The subscription-row effects the checkout handler can instruct the
persistence layer to perform. -/
inductive CheckoutAction
  | createSubscription (user_id : String) (customer_id : Option String)
  | updateSubscription (user_id : String) (u : SubscriptionUpdate)
  | resetUsage (user_id : String)
deriving DecidableEq, Repr

/-- `_handle_checkout_session_completed` from `src/api/webhook_router.py`,
as the list of subscription/usage mutations it performs.  `user_id` and
`customer_id` come from the session payload, `fetched_price_id` is the
outcome of the Stripe subscription lookup (`none` when the lookup fails or
yields no price), `prices` is the `STRIPE_PRICE_IDS` catalog and
`subscription_exists` tells whether the user already has a row.  Every
guard failure returns with no mutation. -/
def _handle_checkout_session_completed (user_id customer_id subscription_id : Option String)
    (fetched_price_id : Option String) (prices : PlanType → Option String)
    (subscription_exists : Bool) : List CheckoutAction :=
  if isFalsy user_id then []
  else if isFalsy subscription_id then []
  else if isFalsy fetched_price_id then []
  else
    match user_id, subscription_id, fetched_price_id with
    | some uid, some sid, some price_id =>
      match determine_plan_from_price_id prices price_id with
      | none => []
      | some plan =>
        (if subscription_exists then []
         else [CheckoutAction.createSubscription uid customer_id]) ++
        [CheckoutAction.updateSubscription uid
          { stripe_subscription_id := some sid,
            stripe_price_id := some price_id,
            status := some plan.value,
            is_active := some true,
            current_period_end := none,
            message_credits := none,
            unlimited_until := none },
         CheckoutAction.resetUsage uid]
    | _, _, _ => []

/-- `_handle_invoice_payment_failed` from `src/api/webhook_router.py`:
returns `none` when the event carries no subscription id or the id matches
no stored row; otherwise the updated row.  `stripe_period_end` is the
outcome of the fallback Stripe lookup for `current_period_end` (`none` when
it fails or is absent), consulted only when the stored value is unset. -/
def _handle_invoice_payment_failed (subscription_id : Option String)
    (dbSub : Option Subscription) (stripe_period_end : Option Int) :
    Option Subscription :=
  match subscription_id with
  | none => none
  | some _ =>
    match dbSub with
    | none => none
    | some sub =>
      let current_period_end :=
        match sub.current_period_end with
        | some x => some x
        | none => stripe_period_end
      some (DB.update_user_subscription sub
        { stripe_subscription_id := none,
          stripe_price_id := none,
          status := none,
          is_active := some false,
          current_period_end := current_period_end,
          message_credits := none,
          unlimited_until := none })

end Webhook

/-! Helper lemmas shared by the claim theorems. -/

theorem deduct_message_credit_nonneg (sub : Subscription)
    (h : 0 ≤ sub.message_credits) :
    0 ≤ (DB.deduct_message_credit sub).message_credits := by
  unfold DB.deduct_message_credit
  split
  · exact h
  · simp only
    omega

theorem extend_unlimited_until_epoch (now : Int) (sub : Subscription) (d : Int) :
    (DB.extend_unlimited_until now sub d).unlimited_until =
      some { epoch := (match sub.unlimited_until with
                       | none => now
                       | some cu => max (ensureUtc cu).epoch now) + d,
             aware := true } := by
  cases h : sub.unlimited_until with
  | none => simp [DB.extend_unlimited_until, DB.set_unlimited_until, h]
  | some cu =>
    have hmax : (if now < (ensureUtc cu).epoch then (ensureUtc cu).epoch else now)
        = max (ensureUtc cu).epoch now := by
      rcases le_or_lt (ensureUtc cu).epoch now with hle | hlt
      · rw [if_neg (not_lt.mpr hle), max_eq_right hle]
      · rw [if_pos hlt, max_eq_left hlt.le]
    simp [DB.extend_unlimited_until, DB.set_unlimited_until, h, hmax]

/-! Claim theorems. -/

/-- Claim C1: when `unlimited_until` is set, strictly after `now`, and at or
after the lifetime sentinel, the effective-plan resolver returns `LIFETIME`
whatever `message_credits` holds. -/
theorem C1_lifetime_precedence (now : Int) (sub : Subscription) (u : PyDateTime)
    (hset : sub.unlimited_until = some u)
    (hfut : now < (ensureUtc u).epoch)
    (hlife : LIFETIME_EXPIRY ≤ (ensureUtc u).epoch) :
    SpecModel.get_effective_plan now sub = SpecModel.EffectivePlan.LIFETIME := by
  unfold SpecModel.get_effective_plan
  rw [hset]
  simp [hfut, hlife]

theorem C1_lifetime_precedence_witness :
    SpecModel.get_effective_plan 1000
      { stripe_subscription_id := none, stripe_price_id := none,
        status := "lifetime", is_active := true, current_period_end := none,
        message_credits := 0,
        unlimited_until := some { epoch := 4102444800, aware := true } }
      = SpecModel.EffectivePlan.LIFETIME :=
  C1_lifetime_precedence 1000 _ { epoch := 4102444800, aware := true }
    rfl (by decide) (by decide)

/-- Claim C2: `deduct_message_credit` is a silent no-op at zero (or
negative) credits, otherwise decrements by exactly one; hence any sequence
of deductions keeps a non-negative balance non-negative. -/
theorem C2_no_negative_credits (sub : Subscription) :
    (sub.message_credits ≤ 0 → DB.deduct_message_credit sub = sub) ∧
    (0 < sub.message_credits →
      (DB.deduct_message_credit sub).message_credits = sub.message_credits - 1) ∧
    (∀ n : Nat, 0 ≤ sub.message_credits →
      0 ≤ ((DB.deduct_message_credit)^[n] sub).message_credits) := by
  refine ⟨?_, ?_, ?_⟩
  · intro h
    unfold DB.deduct_message_credit
    rw [if_pos h]
  · intro h
    unfold DB.deduct_message_credit
    rw [if_neg (by omega)]
  · intro n
    induction n generalizing sub with
    | zero => intro h; simpa using h
    | succ k ih =>
      intro h
      rw [Function.iterate_succ_apply]
      exact ih _ (deduct_message_credit_nonneg sub h)

theorem C2_no_negative_credits_witness :
    (DB.deduct_message_credit
      { stripe_subscription_id := none, stripe_price_id := none,
        status := "free", is_active := true, current_period_end := none,
        message_credits := 0, unlimited_until := none } =
      { stripe_subscription_id := none, stripe_price_id := none,
        status := "free", is_active := true, current_period_end := none,
        message_credits := 0, unlimited_until := none }) ∧
    0 ≤ ((DB.deduct_message_credit)^[5]
      { stripe_subscription_id := none, stripe_price_id := none,
        status := "free", is_active := true, current_period_end := none,
        message_credits := 3, unlimited_until := none }).message_credits :=
  ⟨(C2_no_negative_credits _).1 (by decide),
   (C2_no_negative_credits _).2.2 5 (by decide)⟩

/-- Claim C3: `extend_unlimited_until` stores
`max(existing unlimited_until as UTC, now) + duration` (the base is `now`
when no expiry is stored); consequently two back-to-back passes of
durations `d1`, `d2` applied with no time elapsing, starting with no
still-active pass and `0 ≤ d1`, stack to `now + d1 + d2`. -/
theorem C3_pass_stacking (now : Int) (sub : Subscription) (d d1 d2 : Int) :
    ((DB.extend_unlimited_until now sub d).unlimited_until =
      some { epoch := (match sub.unlimited_until with
                       | none => now
                       | some cu => max (ensureUtc cu).epoch now) + d,
             aware := true }) ∧
    ((∀ u, sub.unlimited_until = some u → (ensureUtc u).epoch ≤ now) →
      0 ≤ d1 →
      (DB.extend_unlimited_until now
        (DB.extend_unlimited_until now sub d1) d2).unlimited_until =
        some { epoch := now + d1 + d2, aware := true }) := by
  refine ⟨extend_unlimited_until_epoch now sub d, ?_⟩
  intro hpast hd1
  have h1 : (DB.extend_unlimited_until now sub d1).unlimited_until =
      some { epoch := now + d1, aware := true } := by
    rw [extend_unlimited_until_epoch now sub d1]
    cases h : sub.unlimited_until with
    | none => rfl
    | some cu =>
      have := hpast cu h
      simp [max_eq_right this]
  rw [extend_unlimited_until_epoch now _ d2, h1]
  have : max (ensureUtc { epoch := now + d1, aware := true }).epoch now = now + d1 := by
    have hle : now ≤ now + d1 := by omega
    simpa [ensureUtc] using max_eq_left hle
  simp [this]

/-- Claim C4: the access gate allows the message whenever the effective
plan is `LIFETIME`, `UNLIMITED` or `CREDITS`; under `FREE` it allows
exactly when the remaining free messages are positive, which (for a
positive limit) holds exactly when the window is expired or the count is
below the limit. -/
theorem C4_access_gate (now : Int) (sub : Subscription) (usage : Usage)
    (limit window_hours : Int) :
    (SpecModel.get_effective_plan now sub ≠ SpecModel.EffectivePlan.FREE →
      SpecModel.can_send_message now sub usage limit window_hours = true) ∧
    (SpecModel.get_effective_plan now sub = SpecModel.EffectivePlan.FREE →
      (SpecModel.can_send_message now sub usage limit window_hours = true ↔
        0 < SpecModel.get_remaining_free_messages now usage limit window_hours)) ∧
    (0 < limit →
      (0 < SpecModel.get_remaining_free_messages now usage limit window_hours ↔
        (SpecModel.is_window_expired now usage.last_reset_at window_hours = true ∨
          (usage.message_count : Int) < limit))) := by
  refine ⟨?_, ?_, ?_⟩
  · intro hne
    unfold SpecModel.can_send_message
    cases hp : SpecModel.get_effective_plan now sub with
    | FREE => exact absurd hp hne
    | CREDITS => rfl
    | UNLIMITED => rfl
    | LIFETIME => rfl
  · intro hfree
    unfold SpecModel.can_send_message
    rw [hfree]
    simp
  · intro hl
    unfold SpecModel.get_remaining_free_messages
    by_cases hw : SpecModel.is_window_expired now usage.last_reset_at window_hours = true
    · simp [hw, hl]
    · rw [Bool.not_eq_true] at hw
      simp only [hw, Bool.false_eq_true, if_false, false_or]
      rw [lt_max_iff]
      omega

theorem C4_access_gate_witness :
    (SpecModel.can_send_message 1000
      { stripe_subscription_id := none, stripe_price_id := none,
        status := "unlimited", is_active := true, current_period_end := none,
        message_credits := 0,
        unlimited_until := some { epoch := 2000, aware := true } }
      { message_count := 5, last_reset_at := some { epoch := 900, aware := true } }
      1 48 = true) ∧
    (0 < SpecModel.get_remaining_free_messages 1000
      { message_count := 5, last_reset_at := some { epoch := 900, aware := true } } 1 48 ↔
      (SpecModel.is_window_expired 1000 (some { epoch := 900, aware := true }) 48 = true ∨
        ((5 : Nat) : Int) < 1)) :=
  ⟨(C4_access_gate 1000 _ _ 1 48).1 (by decide),
   (C4_access_gate 1000
      { stripe_subscription_id := none, stripe_price_id := none,
        status := "unlimited", is_active := true, current_period_end := none,
        message_credits := 0,
        unlimited_until := some { epoch := 2000, aware := true } }
      { message_count := 5, last_reset_at := some { epoch := 900, aware := true } }
      1 48).2.2 (by decide)⟩

/-- Claim C5 counterexample: at 25 hours elapsed (`now = 90000`,
`last_reset_at` epoch 0) the tracker already treats the window as expired,
although 48 hours have not elapsed; the configured window constant is not
48 hours. -/
theorem C5_window_counterexample :
    UsageTracker._should_reset_usage 90000 (some { epoch := 0, aware := true }) = true ∧
    ¬ ((48 : Int) * 60 * 60 ≤ 90000 - (0 : Int)) ∧
    USAGE_WINDOW_SECONDS ≠ 48 * 60 * 60 := by
  refine ⟨by decide, by decide, by decide⟩

/-- Claim C5 (amended): the rolling window defaults to 24 hours — the
window starting at `last_reset_at` is treated as expired exactly once 24
hours (`USAGE_WINDOW_SECONDS`) have elapsed. -/
theorem C5_window_is_24_hours (now : Int) (d : PyDateTime) :
    USAGE_WINDOW_SECONDS = 24 * 60 * 60 ∧
    (UsageTracker._should_reset_usage now (some d) = true ↔
      USAGE_WINDOW_SECONDS ≤ now - d.epoch) := by
  refine ⟨rfl, ?_⟩
  unfold UsageTracker._should_reset_usage
  simp [ensureUtc_epoch, USAGE_WINDOW_SECONDS]

/-- Claim C6: for a finite plan limit, the remaining-messages computation
returns the full limit whenever the window is expired — in particular for
any `last_reset_at` at least the window length in the past, whatever the
stale count — and otherwise `max 0 (limit - message_count)`. -/
theorem C6_remaining_messages (now : Int) (usage : Usage)
    (plan_type : PlanType) (L : Nat)
    (hfin : UsageTracker.get_plan_message_limit plan_type = some L) :
    (UsageTracker._should_reset_usage now usage.last_reset_at = true →
      UsageTracker.get_remaining_messages now usage plan_type = (L : Int)) ∧
    (UsageTracker._should_reset_usage now usage.last_reset_at = false →
      UsageTracker.get_remaining_messages now usage plan_type =
        max 0 ((L : Int) - (usage.message_count : Int))) ∧
    (∀ d, usage.last_reset_at = some d →
      USAGE_WINDOW_SECONDS ≤ now - d.epoch →
      UsageTracker.get_remaining_messages now usage plan_type = (L : Int)) := by
  refine ⟨?_, ?_, ?_⟩
  · intro h
    simp [UsageTracker.get_remaining_messages, hfin, h]
  · intro h
    simp [UsageTracker.get_remaining_messages, hfin, h]
  · intro d hd hw
    have hreset : UsageTracker._should_reset_usage now usage.last_reset_at = true := by
      rw [hd]
      unfold UsageTracker._should_reset_usage
      simp only [ensureUtc_epoch, decide_eq_true_eq]
      simpa [USAGE_WINDOW_SECONDS] using hw
    simp [UsageTracker.get_remaining_messages, hfin, hreset]

theorem C6_remaining_messages_witness :
    (UsageTracker.get_remaining_messages 90000
      { message_count := 999, last_reset_at := some { epoch := 0, aware := true } }
      PlanType.FREE = ((1 : Nat) : Int)) ∧
    (UsageTracker.get_remaining_messages 100
      { message_count := 2, last_reset_at := some { epoch := 0, aware := true } }
      PlanType.BASIC = max 0 (((3 : Nat) : Int) - ((2 : Nat) : Int))) :=
  ⟨(C6_remaining_messages 90000 _ PlanType.FREE 1 rfl).2.2
      { epoch := 0, aware := true } rfl (by decide),
   (C6_remaining_messages 100 _ PlanType.BASIC 3 rfl).2.1 (by decide)⟩

/-- Claim C7: the window-expiry check is true exactly when `last_reset_at`
is unset or `now - last_reset_at` is at least the window length, and a
naive timestamp is interpreted as UTC (it behaves identically to the aware
UTC timestamp with the same reading). -/
theorem C7_window_expiry_check (now : Int) :
    UsageTracker._should_reset_usage now none = true ∧
    (∀ d : PyDateTime,
      UsageTracker._should_reset_usage now (some d) = true ↔
        USAGE_WINDOW_SECONDS ≤ now - d.epoch) ∧
    (∀ v : Int,
      UsageTracker._should_reset_usage now (some { epoch := v, aware := false }) =
        UsageTracker._should_reset_usage now (some { epoch := v, aware := true })) := by
  refine ⟨rfl, ?_, ?_⟩
  · intro d
    unfold UsageTracker._should_reset_usage
    simp [ensureUtc_epoch, USAGE_WINDOW_SECONDS]
  · intro v
    unfold UsageTracker._should_reset_usage
    simp [ensureUtc]

/-- Claim C10: under the unlimited `PRO` plan (limit `none`) the limit check
never trips and the remaining-messages computation returns the constant
999999, whatever the usage record holds. -/
theorem C10_pro_unlimited (now : Int) (usage : Usage) :
    UsageTracker.get_plan_message_limit PlanType.PRO = none ∧
    UsageTracker.is_message_limit_exceeded now usage PlanType.PRO = false ∧
    UsageTracker.get_remaining_messages now usage PlanType.PRO = 999999 :=
  ⟨rfl, rfl, rfl⟩

theorem C3_pass_stacking_witness :
    (DB.extend_unlimited_until 1000
      (DB.extend_unlimited_until 1000
        { stripe_subscription_id := none, stripe_price_id := none,
          status := "free", is_active := true, current_period_end := none,
          message_credits := 0, unlimited_until := none } 86400)
      604800).unlimited_until =
      some { epoch := 1000 + 86400 + 604800, aware := true } :=
  (C3_pass_stacking 1000 _ 0 86400 604800).2
    (by intro u hu; simp at hu) (by decide)

/-- Claim C8: for a subscription the payment-failed handler found in the
database, the resulting row has `is_active = false`, keeps
`message_credits` and `unlimited_until` untouched, keeps any stored
`current_period_end`, and ends with no `current_period_end` only when none
was stored. -/
theorem C8_payment_failed_frame (sid : String) (sub : Subscription)
    (stripe_period_end : Option Int) (s' : Subscription)
    (h : Webhook._handle_invoice_payment_failed (some sid) (some sub)
      stripe_period_end = some s') :
    s'.is_active = false ∧
    s'.message_credits = sub.message_credits ∧
    s'.unlimited_until = sub.unlimited_until ∧
    (∀ x, sub.current_period_end = some x → s'.current_period_end = some x) ∧
    (s'.current_period_end = none → sub.current_period_end = none) := by
  unfold Webhook._handle_invoice_payment_failed at h
  simp only [Option.some.injEq] at h
  subst h
  refine ⟨rfl, rfl, rfl, ?_, ?_⟩
  · intro x hx
    simp [DB.update_user_subscription, hx]
  · intro hx
    cases hcpe : sub.current_period_end with
    | none => rfl
    | some x => simp [DB.update_user_subscription, hcpe] at hx

/-- A fully-populated subscription row used to instantiate the
payment-failed frame theorem. -/
def subPaid : Subscription :=
  { stripe_subscription_id := some "sub_123",
    stripe_price_id := some "price_basic",
    status := "basic",
    is_active := true,
    current_period_end := some 555,
    message_credits := 7,
    unlimited_until := some { epoch := 999, aware := true } }

/-- The row the payment-failed handler produces for `subPaid`. -/
def subPaidAfterFailure : Subscription :=
  (Webhook._handle_invoice_payment_failed (some "sub_123") (some subPaid)
    none).getD subPaid

theorem C8_payment_failed_frame_witness :
    subPaidAfterFailure.is_active = false ∧
    subPaidAfterFailure.message_credits = subPaid.message_credits ∧
    subPaidAfterFailure.unlimited_until = subPaid.unlimited_until ∧
    subPaidAfterFailure.current_period_end = some 555 :=
  have h := C8_payment_failed_frame "sub_123" subPaid none subPaidAfterFailure rfl
  ⟨h.1, h.2.1, h.2.2.1, h.2.2.2.1 555 rfl⟩

/-- Claim C9: the checkout-completed handler performs no subscription-row
creation or mutation when the user identifier is missing, when the
price identifier cannot be determined, or when the price maps to no plan in
the catalog. -/
theorem C9_malformed_checkout (user_id customer_id subscription_id : Option String)
    (fetched_price_id : Option String) (prices : PlanType → Option String)
    (subscription_exists : Bool) :
    (user_id = none →
      Webhook._handle_checkout_session_completed user_id customer_id subscription_id
        fetched_price_id prices subscription_exists = []) ∧
    (fetched_price_id = none →
      Webhook._handle_checkout_session_completed user_id customer_id subscription_id
        fetched_price_id prices subscription_exists = []) ∧
    (∀ pid, fetched_price_id = some pid →
      determine_plan_from_price_id prices pid = none →
      Webhook._handle_checkout_session_completed user_id customer_id subscription_id
        fetched_price_id prices subscription_exists = []) := by
  refine ⟨?_, ?_, ?_⟩
  · intro h
    subst h
    rfl
  · intro h
    subst h
    unfold Webhook._handle_checkout_session_completed
    split
    · rfl
    · split
      · rfl
      · rfl
  · intro pid hp hdet
    subst hp
    unfold Webhook._handle_checkout_session_completed
    split
    · rfl
    · rename_i h1
      split
      · rfl
      · rename_i h2
        split
        · rfl
        · rcases user_id with _ | uid
          · simp [Webhook.isFalsy] at h1
          · rcases subscription_id with _ | sid
            · simp [Webhook.isFalsy] at h2
            · simp [hdet]

theorem C9_malformed_checkout_witness :
    (Webhook._handle_checkout_session_completed none (some "cus_1") (some "sub_1")
      (some "price_x") (fun _ => none) false = []) ∧
    (Webhook._handle_checkout_session_completed (some "user_1") (some "cus_1")
      (some "sub_1") none (fun _ => none) false = []) ∧
    (Webhook._handle_checkout_session_completed (some "user_1") (some "cus_1")
      (some "sub_1") (some "price_x") (fun _ => none) false = []) :=
  ⟨(C9_malformed_checkout none (some "cus_1") (some "sub_1") (some "price_x")
      (fun _ => none) false).1 rfl,
   (C9_malformed_checkout (some "user_1") (some "cus_1") (some "sub_1") none
      (fun _ => none) false).2.1 rfl,
   (C9_malformed_checkout (some "user_1") (some "cus_1") (some "sub_1")
      (some "price_x") (fun _ => none) false).2.2 "price_x" rfl (by decide)⟩
